import Mathlib

/-!
Verification of the RezzonanceTouch core (Resonance Touch Interface, RTI).

The TypeScript sources under `src/core` (`constants.ts`, `types.ts`,
`utils.ts`, the `RTI` orchestrator class and the `GenesisProfile` store)
are embedded shallowly: every numeric field uses `ℚ` (TypeScript `number`
restricted to the exact arithmetic actually performed), timestamps use
`ℕ`, and the mutable methods become pure state-passing functions.
TypeScript `Partial` objects become structures of `Option` fields.
-/

/-! ## Configuration data model (`src/core/types.ts`, `RTIConfig`) -/

/-- Hardware section of `RTIConfig` (`types.ts`). -/
structure HardwareConfig where
  sensors : List String
  inputSurface : String
  pressureSensitivity : ℚ
  samplingRate : ℚ
  deriving DecidableEq, Repr

/-- Software section of `RTIConfig` (`types.ts`). -/
structure SoftwareConfig where
  emotionDecoder : String
  resonanceEngine : String
  realTimeProcessing : Bool
  confidenceThreshold : ℚ
  deriving DecidableEq, Repr

/-- Privacy section of `RTIConfig` (`types.ts`). -/
structure PrivacySectionConfig where
  localProcessingOnly : Bool
  encryptData : Bool
  dataRetentionDays : ℕ
  allowAnonymousSharing : Bool
  deriving DecidableEq, Repr

/-- Performance section of `RTIConfig` (`types.ts`). -/
structure PerformanceConfig where
  maxLatency : ℚ
  enableCaching : Bool
  memoryLimit : ℚ
  adaptiveLearning : Bool
  deriving DecidableEq, Repr

/-- `RTIConfig` (`types.ts`): the four configuration sections. -/
structure RTIConfig where
  hardware : HardwareConfig
  software : SoftwareConfig
  privacy : PrivacySectionConfig
  performance : PerformanceConfig
  deriving DecidableEq, Repr

/-- A `Partial` hardware section: every field optional. -/
structure HardwareOverride where
  sensors : Option (List String) := none
  inputSurface : Option String := none
  pressureSensitivity : Option ℚ := none
  samplingRate : Option ℚ := none
  deriving DecidableEq, Repr

/-- A `Partial` software section: every field optional. -/
structure SoftwareOverride where
  emotionDecoder : Option String := none
  resonanceEngine : Option String := none
  realTimeProcessing : Option Bool := none
  confidenceThreshold : Option ℚ := none
  deriving DecidableEq, Repr

/-- A `Partial` privacy section: every field optional. -/
structure PrivacySectionOverride where
  localProcessingOnly : Option Bool := none
  encryptData : Option Bool := none
  dataRetentionDays : Option ℕ := none
  allowAnonymousSharing : Option Bool := none
  deriving DecidableEq, Repr

/-- A `Partial` performance section: every field optional. -/
structure PerformanceOverride where
  maxLatency : Option ℚ := none
  enableCaching : Option Bool := none
  memoryLimit : Option ℚ := none
  adaptiveLearning : Option Bool := none
  deriving DecidableEq, Repr

/-- `Partial RTIConfig` as received by `RTIUtils.mergeConfig`: each section
optional, and inside a present section each field optional. -/
structure RTIConfigOverride where
  hardware : Option HardwareOverride := none
  software : Option SoftwareOverride := none
  privacy : Option PrivacySectionOverride := none
  performance : Option PerformanceOverride := none
  deriving DecidableEq, Repr

namespace RTIUtils

/-- Spread of a present hardware override onto a base section
(`...merged.hardware, ...override.hardware` in `mergeConfig`). -/
def spreadHardware (base : HardwareConfig) (o : HardwareOverride) : HardwareConfig :=
  { sensors := o.sensors.getD base.sensors
    inputSurface := o.inputSurface.getD base.inputSurface
    pressureSensitivity := o.pressureSensitivity.getD base.pressureSensitivity
    samplingRate := o.samplingRate.getD base.samplingRate }

/-- Spread of a present software override onto a base section. -/
def spreadSoftware (base : SoftwareConfig) (o : SoftwareOverride) : SoftwareConfig :=
  { emotionDecoder := o.emotionDecoder.getD base.emotionDecoder
    resonanceEngine := o.resonanceEngine.getD base.resonanceEngine
    realTimeProcessing := o.realTimeProcessing.getD base.realTimeProcessing
    confidenceThreshold := o.confidenceThreshold.getD base.confidenceThreshold }

/-- Spread of a present privacy override onto a base section. -/
def spreadPrivacy (base : PrivacySectionConfig) (o : PrivacySectionOverride) :
    PrivacySectionConfig :=
  { localProcessingOnly := o.localProcessingOnly.getD base.localProcessingOnly
    encryptData := o.encryptData.getD base.encryptData
    dataRetentionDays := o.dataRetentionDays.getD base.dataRetentionDays
    allowAnonymousSharing := o.allowAnonymousSharing.getD base.allowAnonymousSharing }

/-- Spread of a present performance override onto a base section. -/
def spreadPerformance (base : PerformanceConfig) (o : PerformanceOverride) :
    PerformanceConfig :=
  { maxLatency := o.maxLatency.getD base.maxLatency
    enableCaching := o.enableCaching.getD base.enableCaching
    memoryLimit := o.memoryLimit.getD base.memoryLimit
    adaptiveLearning := o.adaptiveLearning.getD base.adaptiveLearning }

/-- `RTIUtils.mergeConfig` (`utils.ts` lines 27-65): returns a copy of `base`
when `override` is absent; otherwise shallowly merges each of the four
sections that the override supplies. -/
def mergeConfig (base : RTIConfig) (override : Option RTIConfigOverride) : RTIConfig :=
  match override with
  | none => base
  | some o =>
    { hardware := match o.hardware with
        | none => base.hardware
        | some h => spreadHardware base.hardware h
      software := match o.software with
        | none => base.software
        | some s => spreadSoftware base.software s
      privacy := match o.privacy with
        | none => base.privacy
        | some p => spreadPrivacy base.privacy p
      performance := match o.performance with
        | none => base.performance
        | some p => spreadPerformance base.performance p }

/-! ### `PERFORMANCE_LIMITS` (`constants.ts` lines 213-221) -/

def MAX_LATENCY_MS : ℚ := 10
def MIN_SAMPLING_RATE_HZ : ℚ := 100
def MAX_SAMPLING_RATE_HZ : ℚ := 2000
def MAX_MEMORY_USAGE_MB : ℚ := 100
def MIN_CONFIDENCE_THRESHOLD : ℚ := 1/2
def MAX_CONFIDENCE_THRESHOLD : ℚ := 19/20

/-- Result record of `RTIUtils.validateConfig`. -/
structure ValidationResult where
  valid : Bool
  errors : List String
  deriving DecidableEq, Repr

/-- `RTIUtils.validateConfig` (`utils.ts` lines 73-111): pushes one message
per violated constraint, in source order, and reports `valid` exactly when
no message was pushed. -/
def validateConfig (config : RTIConfig) : ValidationResult :=
  let errors : List String :=
    (if config.hardware.samplingRate < MIN_SAMPLING_RATE_HZ then
      ["Sampling rate must be at least 100 Hz"] else []) ++
    (if config.hardware.samplingRate > MAX_SAMPLING_RATE_HZ then
      ["Sampling rate must not exceed 2000 Hz"] else []) ++
    (if config.hardware.pressureSensitivity < 0 ∨ config.hardware.pressureSensitivity > 1 then
      ["Pressure sensitivity must be between 0.0 and 1.0"] else []) ++
    (if config.software.confidenceThreshold < MIN_CONFIDENCE_THRESHOLD then
      ["Confidence threshold must be at least 0.5"] else []) ++
    (if config.software.confidenceThreshold > MAX_CONFIDENCE_THRESHOLD then
      ["Confidence threshold must not exceed 0.95"] else []) ++
    (if config.performance.maxLatency > MAX_LATENCY_MS then
      ["Maximum latency must not exceed 10 ms"] else []) ++
    (if config.performance.memoryLimit > MAX_MEMORY_USAGE_MB then
      ["Memory limit must not exceed 100 MB"] else [])
  { valid := errors.isEmpty, errors := errors }

end RTIUtils

/-- C10: `mergeConfig` merges each of the four sections shallowly — every
field of the result equals the override's value when the override supplies
that section and field, and the base's value otherwise — and an absent
override is an identity. -/
theorem mergeConfig_shallow_section_merge (base : RTIConfig) (o : RTIConfigOverride) :
    RTIUtils.mergeConfig base none = base ∧
    (RTIUtils.mergeConfig base (some o)).hardware.sensors =
      (o.hardware.bind (fun h => h.sensors)).getD base.hardware.sensors ∧
    (RTIUtils.mergeConfig base (some o)).hardware.inputSurface =
      (o.hardware.bind (fun h => h.inputSurface)).getD base.hardware.inputSurface ∧
    (RTIUtils.mergeConfig base (some o)).hardware.pressureSensitivity =
      (o.hardware.bind (fun h => h.pressureSensitivity)).getD base.hardware.pressureSensitivity ∧
    (RTIUtils.mergeConfig base (some o)).hardware.samplingRate =
      (o.hardware.bind (fun h => h.samplingRate)).getD base.hardware.samplingRate ∧
    (RTIUtils.mergeConfig base (some o)).software.emotionDecoder =
      (o.software.bind (fun s => s.emotionDecoder)).getD base.software.emotionDecoder ∧
    (RTIUtils.mergeConfig base (some o)).software.resonanceEngine =
      (o.software.bind (fun s => s.resonanceEngine)).getD base.software.resonanceEngine ∧
    (RTIUtils.mergeConfig base (some o)).software.realTimeProcessing =
      (o.software.bind (fun s => s.realTimeProcessing)).getD base.software.realTimeProcessing ∧
    (RTIUtils.mergeConfig base (some o)).software.confidenceThreshold =
      (o.software.bind (fun s => s.confidenceThreshold)).getD base.software.confidenceThreshold ∧
    (RTIUtils.mergeConfig base (some o)).privacy.localProcessingOnly =
      (o.privacy.bind (fun p => p.localProcessingOnly)).getD base.privacy.localProcessingOnly ∧
    (RTIUtils.mergeConfig base (some o)).privacy.encryptData =
      (o.privacy.bind (fun p => p.encryptData)).getD base.privacy.encryptData ∧
    (RTIUtils.mergeConfig base (some o)).privacy.dataRetentionDays =
      (o.privacy.bind (fun p => p.dataRetentionDays)).getD base.privacy.dataRetentionDays ∧
    (RTIUtils.mergeConfig base (some o)).privacy.allowAnonymousSharing =
      (o.privacy.bind (fun p => p.allowAnonymousSharing)).getD base.privacy.allowAnonymousSharing ∧
    (RTIUtils.mergeConfig base (some o)).performance.maxLatency =
      (o.performance.bind (fun p => p.maxLatency)).getD base.performance.maxLatency ∧
    (RTIUtils.mergeConfig base (some o)).performance.enableCaching =
      (o.performance.bind (fun p => p.enableCaching)).getD base.performance.enableCaching ∧
    (RTIUtils.mergeConfig base (some o)).performance.memoryLimit =
      (o.performance.bind (fun p => p.memoryLimit)).getD base.performance.memoryLimit ∧
    (RTIUtils.mergeConfig base (some o)).performance.adaptiveLearning =
      (o.performance.bind (fun p => p.adaptiveLearning)).getD base.performance.adaptiveLearning := by
  refine ⟨rfl, ?_⟩
  obtain ⟨h, s, p, pf⟩ := o
  cases h <;> cases s <;> cases p <;> cases pf <;>
    simp [RTIUtils.mergeConfig, RTIUtils.spreadHardware, RTIUtils.spreadSoftware,
      RTIUtils.spreadPrivacy, RTIUtils.spreadPerformance]

/-- C4: `validateConfig` collects every violated constraint: with sampling
rate 50 Hz and confidence threshold 0.99 present simultaneously both
messages are reported, and in general `valid` is `true` exactly when the
error list is empty. -/
theorem validateConfig_collects_all_violations (config : RTIConfig)
    (hs : config.hardware.samplingRate = 50)
    (hc : config.software.confidenceThreshold = 99/100) :
    ((RTIUtils.validateConfig config).valid = true ↔
      (RTIUtils.validateConfig config).errors = []) ∧
    "Sampling rate must be at least 100 Hz" ∈ (RTIUtils.validateConfig config).errors ∧
    "Confidence threshold must not exceed 0.95" ∈ (RTIUtils.validateConfig config).errors ∧
    (RTIUtils.validateConfig config).valid = false := by
  have hvalid : ∀ c : RTIConfig, (RTIUtils.validateConfig c).valid = true ↔
      (RTIUtils.validateConfig c).errors = [] := by
    intro c
    simp [RTIUtils.validateConfig, List.isEmpty_iff]
  have h1 : "Sampling rate must be at least 100 Hz" ∈ (RTIUtils.validateConfig config).errors := by
    simp only [RTIUtils.validateConfig, hs, RTIUtils.MIN_SAMPLING_RATE_HZ]
    norm_num
  have h2 : "Confidence threshold must not exceed 0.95" ∈
      (RTIUtils.validateConfig config).errors := by
    simp only [RTIUtils.validateConfig, hc, RTIUtils.MAX_CONFIDENCE_THRESHOLD]
    by_cases hp : config.hardware.pressureSensitivity < 0 ∨
        config.hardware.pressureSensitivity > 1 <;>
      by_cases hl : config.performance.maxLatency > RTIUtils.MAX_LATENCY_MS <;>
      by_cases hm : config.performance.memoryLimit > RTIUtils.MAX_MEMORY_USAGE_MB <;>
      simp [hp, hl, hm, hs, RTIUtils.MIN_SAMPLING_RATE_HZ, RTIUtils.MAX_SAMPLING_RATE_HZ,
        RTIUtils.MIN_CONFIDENCE_THRESHOLD] <;> norm_num
  refine ⟨hvalid config, h1, h2, ?_⟩
  have hne : (RTIUtils.validateConfig config).errors ≠ [] := by
    intro h
    rw [h] at h1
    exact absurd h1 (List.not_mem_nil _)
  rcases hb : (RTIUtils.validateConfig config).valid with _ | _
  · rfl
  · exact absurd ((hvalid config).mp hb) hne

/-- Witness for C4 at a concrete configuration with sampling rate 50 and
confidence threshold 0.99. -/
theorem validateConfig_collects_all_violations_witness :
    let cfg : RTIConfig :=
      { hardware := { sensors := ["Force-Touch"], inputSurface := "Standard Trackpad",
                      pressureSensitivity := 1/2, samplingRate := 50 }
        software := { emotionDecoder := "GenesisEmotionCore",
                      resonanceEngine := "HerResonanceAI",
                      realTimeProcessing := true, confidenceThreshold := 99/100 }
        privacy := { localProcessingOnly := true, encryptData := true,
                     dataRetentionDays := 30, allowAnonymousSharing := false }
        performance := { maxLatency := 10, enableCaching := true,
                         memoryLimit := 50, adaptiveLearning := true } }
    "Sampling rate must be at least 100 Hz" ∈ (RTIUtils.validateConfig cfg).errors ∧
    "Confidence threshold must not exceed 0.95" ∈ (RTIUtils.validateConfig cfg).errors ∧
    (RTIUtils.validateConfig cfg).valid = false := by
  intro cfg
  obtain ⟨-, h1, h2, h3⟩ := validateConfig_collects_all_violations cfg rfl rfl
  exact ⟨h1, h2, h3⟩

/-! ## Orchestrator performance window (`RTI.updatePerformanceMetrics`,
`utils.ts` lines 728-752) -/

namespace RTI

/-- One `updatePerformanceMetrics` step on the `latencySamples` buffer:
push the new measurement, then `shift()` the oldest one away whenever the
buffer holds more than 100 entries. -/
def pushLatency (samples : List ℚ) (latency : ℚ) : List ℚ :=
  let pushed := samples ++ [latency]
  if pushed.length > 100 then pushed.tail else pushed

/-- The `latencySamples` buffer after a whole run of measurements starting
from the freshly initialized empty buffer. -/
def latencyWindow (measurements : List ℚ) : List ℚ :=
  measurements.foldl pushLatency []

/-- The `averageLatency` recomputed from the current buffer
(`reduce((a, b) => a + b, 0) / length`). -/
def averageLatency (samples : List ℚ) : ℚ :=
  samples.sum / samples.length

theorem latencyWindow_eq_drop (measurements : List ℚ) :
    latencyWindow measurements = measurements.drop (measurements.length - 100) := by
  induction measurements using List.reverseRecOn with
  | nil => rfl
  | append_singleton xs x ih =>
    have hfold : latencyWindow (xs ++ [x]) = pushLatency (latencyWindow xs) x := by
      simp [latencyWindow, List.foldl_append]
    rw [hfold, ih]
    rcases Nat.lt_or_ge xs.length 100 with hlt | hge
    · have h0 : xs.length - 100 = 0 := by omega
      have hnotbig : ¬ (xs.drop (xs.length - 100) ++ [x]).length > 100 := by
        simp [h0]; omega
      have h0' : (xs ++ [x]).length - 100 = 0 := by simp; omega
      simp only [pushLatency]
      rw [if_neg hnotbig, h0, h0', List.drop_zero, List.drop_zero]
    · have hlen : (xs.drop (xs.length - 100)).length = 100 := by
        simp [List.length_drop]; omega
      have hlen' : (xs.drop (xs.length - 100) ++ [x]).length > 100 := by
        simp [hlen]
      simp only [pushLatency]
      rw [if_pos hlen']
      have hne : xs.drop (xs.length - 100) ≠ [] := by
        intro h
        rw [h] at hlen
        simp at hlen
      obtain ⟨a, t, hat⟩ := List.exists_cons_of_ne_nil hne
      have htail : (xs.drop (xs.length - 100) ++ [x]).tail =
          (xs.drop (xs.length - 100)).tail ++ [x] := by
        rw [hat]; rfl
      rw [htail, ← List.drop_one, List.drop_drop]
      have harith : (xs ++ [x]).length - 100 = xs.length - 100 + 1 := by
        simp; omega
      rw [harith, List.drop_append_of_le_length (by omega)]

end RTI

/-- C2: with more than 100 measurements pushed through
`updatePerformanceMetrics`, the latency buffer holds exactly the most
recent 100 of them and the reported `averageLatency` is the arithmetic
mean of only those 100 — a sliding-window average, not a cumulative one. -/
theorem updatePerformanceMetrics_sliding_window (measurements : List ℚ)
    (h : 100 < measurements.length) :
    (RTI.latencyWindow measurements).length = 100 ∧
    RTI.latencyWindow measurements =
      measurements.drop (measurements.length - 100) ∧
    RTI.averageLatency (RTI.latencyWindow measurements) =
      (measurements.drop (measurements.length - 100)).sum / 100 := by
  have he := RTI.latencyWindow_eq_drop measurements
  have hl : (measurements.drop (measurements.length - 100)).length = 100 := by
    simp [List.length_drop]; omega
  have hlen : (RTI.latencyWindow measurements).length = 100 := by rw [he, hl]
  refine ⟨hlen, he, ?_⟩
  rw [RTI.averageLatency, he, hl]
  norm_num

/-- Witness for C2: a run of 101 pushes keeps only the most recent 100
samples and averages over them. -/
theorem updatePerformanceMetrics_sliding_window_witness :
    (RTI.latencyWindow (List.replicate 101 (1 : ℚ))).length = 100 ∧
    RTI.latencyWindow (List.replicate 101 (1 : ℚ)) =
      (List.replicate 101 (1 : ℚ)).drop ((List.replicate 101 (1 : ℚ)).length - 100) ∧
    RTI.averageLatency (RTI.latencyWindow (List.replicate 101 (1 : ℚ))) =
      ((List.replicate 101 (1 : ℚ)).drop ((List.replicate 101 (1 : ℚ)).length - 100)).sum / 100 :=
  updatePerformanceMetrics_sliding_window (List.replicate 101 (1 : ℚ)) (by simp)

/-! ## Orchestrator mode-usage table (`RTI.updateModeStatistics`,
`utils.ts` lines 771-787) -/

/-- One entry of `stats.topModes` (`types.ts`, `RTIStats`). -/
structure ModeUsage where
  mode : String
  count : ℕ
  percentage : ℚ
  deriving DecidableEq, Repr

namespace RTI

/-- The find-and-increment-or-push step of `updateModeStatistics`:
increment the first entry for `mode`, or append `{mode, count: 1,
percentage: 0}` when none exists. -/
def bumpMode : List ModeUsage → String → List ModeUsage
  | [], mode => [⟨mode, 1, 0⟩]
  | m :: rest, mode =>
    if m.mode = mode then { m with count := m.count + 1 } :: rest
    else m :: bumpMode rest mode

/-- `topModes.reduce((sum, m) => sum + m.count, 0)`. -/
def modeCountTotal (modes : List ModeUsage) : ℕ :=
  (modes.map (fun m => m.count)).sum

/-- The descending-by-count order used by `topModes.sort((a, b) => b.count - a.count)`. -/
def countGe (a b : ModeUsage) : Prop := b.count ≤ a.count

instance : DecidableRel countGe := fun a b => Nat.decLe b.count a.count

/-- `RTI.updateModeStatistics` (`utils.ts` lines 771-787): bump the mode's
count, recompute every percentage over the new total, and re-sort the
table descending by count. -/
def updateModeStatistics (modes : List ModeUsage) (mode : String) : List ModeUsage :=
  let bumped := bumpMode modes mode
  let total := modeCountTotal bumped
  let withPct := bumped.map
    (fun m => { m with percentage := ((m.count : ℚ) / (total : ℚ)) * 100 })
  withPct.insertionSort countGe

theorem bumpMode_total (modes : List ModeUsage) (mode : String) :
    modeCountTotal (bumpMode modes mode) = modeCountTotal modes + 1 := by
  induction modes with
  | nil => simp [bumpMode, modeCountTotal]
  | cons m rest ih =>
    by_cases h : m.mode = mode
    · simp [bumpMode, h, modeCountTotal]
      omega
    · simp only [bumpMode, if_neg h]
      simp [modeCountTotal] at ih ⊢
      omega

theorem bumpMode_ne_nil (modes : List ModeUsage) (mode : String) :
    bumpMode modes mode ≠ [] := by
  cases modes with
  | nil => simp [bumpMode]
  | cons m rest =>
    by_cases h : m.mode = mode <;> simp [bumpMode, h]

theorem sum_map_pct (l : List ModeUsage) (T : ℚ) :
    (l.map (fun m => ((m.count : ℚ) / T) * 100)).sum =
      ((modeCountTotal l : ℚ) / T) * 100 := by
  induction l with
  | nil => simp [modeCountTotal]
  | cons a t ih =>
    simp only [List.map_cons, List.sum_cons, ih]
    simp [modeCountTotal]
    ring

end RTI

/-- C5: after every call to `updateModeStatistics` the table is non-empty
and the percentage fields sum to exactly 100 (the float model being exact
rational arithmetic, the ±0.01 rounding allowance is met with zero error). -/
theorem updateModeStatistics_percentages_sum_100 (modes : List ModeUsage) (mode : String) :
    RTI.updateModeStatistics modes mode ≠ [] ∧
    ((RTI.updateModeStatistics modes mode).map (fun m => m.percentage)).sum = 100 := by
  have hperm := List.perm_insertionSort RTI.countGe
    ((RTI.bumpMode modes mode).map
      (fun m => { m with percentage :=
        ((m.count : ℚ) / ((RTI.modeCountTotal (RTI.bumpMode modes mode)) : ℚ)) * 100 }))
  constructor
  · intro h
    have hne := RTI.bumpMode_ne_nil modes mode
    apply hne
    have h2 := hperm.length_eq
    rw [RTI.updateModeStatistics] at h
    rw [h] at h2
    simp only [List.length_nil, List.length_map] at h2
    exact List.length_eq_zero.mp h2.symm
  · rw [RTI.updateModeStatistics]
    have hsum := (hperm.map (fun m => m.percentage)).sum_eq
    simp only [hsum]
    rw [List.map_map]
    have hcomp : ((fun m : ModeUsage => m.percentage) ∘
        (fun m : ModeUsage => { m with percentage :=
          ((m.count : ℚ) / ((RTI.modeCountTotal (RTI.bumpMode modes mode)) : ℚ)) * 100 })) =
        (fun m : ModeUsage =>
          ((m.count : ℚ) / ((RTI.modeCountTotal (RTI.bumpMode modes mode)) : ℚ)) * 100) := by
      funext m
      rfl
    rw [hcomp, RTI.sum_map_pct]
    have htot : RTI.modeCountTotal (RTI.bumpMode modes mode) =
        RTI.modeCountTotal modes + 1 := RTI.bumpMode_total modes mode
    rw [htot]
    have hne : ((RTI.modeCountTotal modes + 1 : ℕ) : ℚ) ≠ 0 := by
      push_cast
      positivity
    rw [div_self hne]
    norm_num

/-! ## Orchestrator error handling (`RTI.handleError` and
`RTI.determineErrorSeverity`, `utils.ts` lines 796-837) -/

/-- Error severity levels (`types.ts`, `ErrorEvent.severity`). -/
inductive Severity
  | low
  | medium
  | high
  | critical
  deriving DecidableEq, Repr

/-- `SYSTEM_STATUS` (`constants.ts` lines 278-286). -/
inductive SystemStatus
  | initializing
  | ready
  | processing
  | error
  | disabled
  | connected
  | disconnected
  deriving DecidableEq, Repr

namespace RTI

/-- Checks whether `pat` occurs at the start of `s`. -/
def charsStartWith : List Char → List Char → Bool
  | [], _ => true
  | _ :: _, [] => false
  | a :: pat, b :: s => a == b && charsStartWith pat s

/-- Checks whether `pat` occurs anywhere inside `s`
(model of JavaScript `String.prototype.includes`). -/
def charsHaveSub (pat : List Char) : List Char → Bool
  | [] => pat.isEmpty
  | b :: s => charsStartWith pat (b :: s) || charsHaveSub pat s

/-- `code.includes(pat)` on strings. -/
def strIncludes (code pat : String) : Bool :=
  charsHaveSub pat.toList code.toList

/-- The static critical-code set of `determineErrorSeverity`
(`ERROR_CODES`, `constants.ts`). -/
def criticalErrors : List String :=
  ["HARDWARE_NOT_SUPPORTED", "EMOTION_DECODER_ERROR", "RESONANCE_ENGINE_ERROR"]

/-- The static high-code set of `determineErrorSeverity`. -/
def highErrors : List String :=
  ["SENSOR_DISCONNECTED", "LATENCY_EXCEEDED", "MEMORY_LIMIT_EXCEEDED"]

/-- `RTI.determineErrorSeverity` (`utils.ts` lines 820-837). -/
def determineErrorSeverity (code : String) : Severity :=
  if code ∈ criticalErrors then .critical
  else if code ∈ highErrors then .high
  else if strIncludes code "PERFORMANCE" then .medium
  else .low

/-- The normalized error event built by `RTI.handleError`. -/
structure ErrorEventRecord where
  code : String
  message : String
  severity : Severity
  deriving DecidableEq, Repr

/-- `RTI.handleError` (`utils.ts` lines 796-812): emits the normalized
error event and escalates the system status to `error` exactly on a
critical severity. -/
def handleError (code message : String) (st : SystemStatus) :
    ErrorEventRecord × SystemStatus :=
  let event : ErrorEventRecord := ⟨code, message, determineErrorSeverity code⟩
  (event, if event.severity = .critical then .error else st)

end RTI

/-- C7: the status moves to `error` exactly on a critical severity and is
untouched otherwise, where `determineErrorSeverity` is critical precisely
on the static critical set, high on the static high set, medium on codes
containing "PERFORMANCE", and low otherwise. -/
theorem handleError_escalates_only_critical (code message : String) (st : SystemStatus) :
    (RTI.handleError code message st).1.severity = RTI.determineErrorSeverity code ∧
    (RTI.handleError code message st).2 =
      (if RTI.determineErrorSeverity code = .critical then .error else st) ∧
    (RTI.determineErrorSeverity code = .critical ↔ code ∈ RTI.criticalErrors) ∧
    (RTI.determineErrorSeverity code = .high ↔
      code ∉ RTI.criticalErrors ∧ code ∈ RTI.highErrors) ∧
    (RTI.determineErrorSeverity code = .medium ↔
      code ∉ RTI.criticalErrors ∧ code ∉ RTI.highErrors ∧
        RTI.strIncludes code "PERFORMANCE" = true) ∧
    (RTI.determineErrorSeverity code = .low ↔
      code ∉ RTI.criticalErrors ∧ code ∉ RTI.highErrors ∧
        RTI.strIncludes code "PERFORMANCE" = false) := by
  by_cases h1 : code ∈ RTI.criticalErrors <;>
    by_cases h2 : code ∈ RTI.highErrors <;>
    rcases h3 : RTI.strIncludes code "PERFORMANCE" with _ | _ <;>
    simp [RTI.handleError, RTI.determineErrorSeverity, h1, h2, h3]

/-! ## Genesis Profile store (`src/core/GenesisProfile.ts`) -/

/-- `EmotionalPattern.characteristics` (`GenesisProfile.ts`). -/
structure PatternCharacteristics where
  primary : String
  secondary : Option String := none
  intensityRange : ℚ × ℚ
  pressureSensitivity : ℚ
  thermalSignature : ℚ
  pulseCorrelation : Option ℚ := none
  deriving DecidableEq, Repr

/-- `EmotionalPattern` (`GenesisProfile.ts`). -/
structure EmotionalPattern where
  id : String
  name : String
  characteristics : PatternCharacteristics
  frequency : ℕ
  confidence : ℚ
  lastObserved : ℕ
  createdAt : ℕ
  deriving DecidableEq, Repr

/-- `ResonanceSettings.sensitivity` (`GenesisProfile.ts`). -/
structure SensitivitySettings where
  pressure : ℚ
  thermal : ℚ
  pulse : ℚ
  deriving DecidableEq, Repr

/-- `ResonanceSettings.responseSpeed` values. -/
inductive ResponseSpeed
  | slow
  | normal
  | fast
  deriving DecidableEq, Repr

/-- `ResonanceSettings` (`GenesisProfile.ts`). -/
structure ResonanceSettings where
  preferredModes : List String
  formPreferences : List String
  sensitivity : SensitivitySettings
  responseSpeed : ResponseSpeed
  hapticFeedback : Bool
  deriving DecidableEq, Repr

/-- `PrivacyConfig` (`GenesisProfile.ts`). -/
structure PrivacyConfig where
  localProcessingOnly : Bool
  encryptData : Bool
  retentionDays : ℕ
  allowAnonymousSharing : Bool
  sharePatterns : Bool
  sharePreferences : Bool
  deriving DecidableEq, Repr

/-- One entry of `AdaptiveData.adjustments`. -/
structure AdaptiveAdjustment where
  type : String
  value : ℚ
  timestamp : ℕ
  deriving DecidableEq, Repr

/-- `AdaptiveData` (`GenesisProfile.ts`). -/
structure AdaptiveData where
  learningRate : ℚ
  accuracy : ℚ
  trainingSamples : ℕ
  lastTraining : ℕ
  adjustments : List AdaptiveAdjustment
  deriving DecidableEq, Repr

/-- `GenesisProfile` (`GenesisProfile.ts`): a user's full profile. -/
structure GenesisProfileData where
  userId : String
  displayName : String
  emotionalFingerprint : List EmotionalPattern
  resonancePreferences : ResonanceSettings
  privacySettings : PrivacyConfig
  learningData : AdaptiveData
  createdAt : ℕ
  updatedAt : ℕ
  version : String
  deriving DecidableEq, Repr

/-- The query record passed to `findMatchingPatterns`. -/
structure MatchQuery where
  primary : String
  intensity : ℚ
  pressure : ℚ
  thermal : ℚ
  deriving DecidableEq, Repr

namespace GenesisProfile

/-- The filter predicate of `findMatchingPatterns` (`GenesisProfile.ts`
lines 707-716): exact primary-emotion match, inclusive intensity-range
containment, and pressure/thermal proximity strictly below 0.2. -/
def matchesCharacteristics (q : MatchQuery) (pattern : EmotionalPattern) : Bool :=
  decide (pattern.characteristics.primary = q.primary) &&
  decide (pattern.characteristics.intensityRange.1 ≤ q.intensity) &&
  decide (q.intensity ≤ pattern.characteristics.intensityRange.2) &&
  decide (|pattern.characteristics.pressureSensitivity - q.pressure| < 1/5) &&
  decide (|pattern.characteristics.thermalSignature - q.thermal| < 1/5)

/-- The comparator order of `.sort((a, b) => b.confidence - a.confidence)`:
descending confidence, ties left in place (JavaScript sort is stable). -/
def confGe (a b : EmotionalPattern) : Prop := b.confidence ≤ a.confidence

instance : DecidableRel confGe := fun a b =>
  inferInstanceAs (Decidable (b.confidence ≤ a.confidence))

instance : IsTotal EmotionalPattern confGe :=
  ⟨fun a b => le_total b.confidence a.confidence⟩

instance : IsTrans EmotionalPattern confGe :=
  ⟨fun _ _ _ hab hbc => le_trans hbc hab⟩

/-- `findMatchingPatterns` (`GenesisProfile.ts` lines 701-718) as a state
transformer: filters the stored fingerprint, sorts the filtered copy
descending by confidence, and returns the profile state untouched (the
method never assigns to `this.profile`). -/
def findMatchingPatterns (prof : GenesisProfileData) (q : MatchQuery) :
    List EmotionalPattern × GenesisProfileData :=
  (((prof.emotionalFingerprint.filter (matchesCharacteristics q)).insertionSort confGe), prof)

/-- The record produced by `exportProfile`: identity fields always, the
four sensitive groups optionally. -/
structure ExportData where
  userId : String
  displayName : String
  version : String
  createdAt : ℕ
  updatedAt : ℕ
  emotionalFingerprint : Option (List EmotionalPattern) := none
  resonancePreferences : Option ResonanceSettings := none
  privacySettings : Option PrivacyConfig := none
  learningData : Option AdaptiveData := none
  deriving DecidableEq, Repr

/-- `exportProfile` (`GenesisProfile.ts` lines 757-780). -/
def exportProfile (prof : GenesisProfileData) (includePrivate : Bool) : ExportData :=
  { userId := prof.userId
    displayName := prof.displayName
    version := prof.version
    createdAt := prof.createdAt
    updatedAt := prof.updatedAt
    emotionalFingerprint :=
      if includePrivate || prof.privacySettings.sharePatterns then
        some prof.emotionalFingerprint else none
    resonancePreferences :=
      if includePrivate || prof.privacySettings.sharePreferences then
        some prof.resonancePreferences else none
    privacySettings := if includePrivate then some prof.privacySettings else none
    learningData := if includePrivate then some prof.learningData else none }

/-- A `Partial<GenesisProfile>` as accepted by `importProfile`. -/
structure ProfileImportData where
  userId : Option String := none
  displayName : Option String := none
  emotionalFingerprint : Option (List EmotionalPattern) := none
  resonancePreferences : Option ResonanceSettings := none
  privacySettings : Option PrivacyConfig := none
  learningData : Option AdaptiveData := none
  createdAt : Option ℕ := none
  updatedAt : Option ℕ := none
  version : Option String := none
  deriving DecidableEq, Repr

/-- `createDefaultProfile` (`GenesisProfile.ts` lines 469-504). -/
def createDefaultProfile (userId : String) (now : ℕ) : GenesisProfileData :=
  { userId := userId
    displayName := "User_" ++ (userId.take 8)
    emotionalFingerprint := []
    resonancePreferences :=
      { preferredModes := ["creation", "alteration"]
        formPreferences := ["organic", "fluid"]
        sensitivity := { pressure := 1/2, thermal := 1/2, pulse := 1/2 }
        responseSpeed := .normal
        hapticFeedback := true }
    privacySettings :=
      { localProcessingOnly := true
        encryptData := true
        retentionDays := 30
        allowAnonymousSharing := false
        sharePatterns := false
        sharePreferences := false }
    learningData :=
      { learningRate := 1/10
        accuracy := 0
        trainingSamples := 0
        lastTraining := now
        adjustments := [] }
    createdAt := now
    updatedAt := now
    version := "1.0.0" }

/-- The shallow overlay `{...profile, ...data}` restricted to the fields
`data` supplies. -/
def overlayProfile (prof : GenesisProfileData) (data : ProfileImportData) :
    GenesisProfileData :=
  { userId := data.userId.getD prof.userId
    displayName := data.displayName.getD prof.displayName
    emotionalFingerprint := data.emotionalFingerprint.getD prof.emotionalFingerprint
    resonancePreferences := data.resonancePreferences.getD prof.resonancePreferences
    privacySettings := data.privacySettings.getD prof.privacySettings
    learningData := data.learningData.getD prof.learningData
    createdAt := data.createdAt.getD prof.createdAt
    updatedAt := data.updatedAt.getD prof.updatedAt
    version := data.version.getD prof.version }

/-- `importProfile` (`GenesisProfile.ts` lines 788-806) followed by the
`saveProfile` it awaits, which stamps `updatedAt = Date.now()` before
persisting. When merging, overlays `data` onto the current profile and
forces the current `userId` and `createdAt` back on; otherwise overlays
`data` onto a fresh default profile for the same `userId`. -/
def importProfile (prof : GenesisProfileData) (data : ProfileImportData)
    (merge : Bool) (now : ℕ) : GenesisProfileData :=
  let imported :=
    if merge then
      { overlayProfile prof data with
          userId := prof.userId
          createdAt := prof.createdAt }
    else
      { overlayProfile (createDefaultProfile prof.userId now) data with
          userId := prof.userId }
  { imported with updatedAt := now }

end GenesisProfile

namespace GenesisProfile

theorem filter_orderedInsert_conf (c : ℚ) (a : EmotionalPattern)
    (l : List EmotionalPattern) :
    (l.orderedInsert confGe a).filter (fun p => decide (p.confidence = c)) =
      if a.confidence = c
      then a :: l.filter (fun p => decide (p.confidence = c))
      else l.filter (fun p => decide (p.confidence = c)) := by
  induction l with
  | nil =>
    by_cases hc : a.confidence = c <;> simp [List.orderedInsert, hc]
  | cons b t ih =>
    simp only [List.orderedInsert]
    by_cases hr : confGe a b
    · rw [if_pos hr]
      by_cases hc : a.confidence = c <;> simp [List.filter_cons, hc]
    · rw [if_neg hr]
      have hgt : a.confidence < b.confidence := by
        simpa [confGe, not_le] using hr
      by_cases hc : a.confidence = c
      · have hbc : ¬ (b.confidence = c) := by
          rw [← hc]
          exact ne_of_gt hgt
        simp [List.filter_cons, hbc, ih, hc]
      · by_cases hbc : b.confidence = c <;> simp [List.filter_cons, hbc, ih, hc]

theorem filter_insertionSort_conf (c : ℚ) (l : List EmotionalPattern) :
    (l.insertionSort confGe).filter (fun p => decide (p.confidence = c)) =
      l.filter (fun p => decide (p.confidence = c)) := by
  induction l with
  | nil => rfl
  | cons a t ih =>
    simp only [List.insertionSort]
    rw [filter_orderedInsert_conf]
    by_cases hc : a.confidence = c <;> simp [List.filter_cons, hc, ih]

end GenesisProfile

/-- C3: `findMatchingPatterns` returns exactly the stored patterns whose
primary emotion equals the query's, whose stored intensity range contains
the query intensity inclusively, and whose pressure sensitivity and
thermal signature are within the 0.2 proximity epsilon of the query; the
result is sorted descending by confidence with ties kept in stored order,
the stored fingerprint is left unchanged, and repeating the call on the
unchanged store yields the same list. -/
theorem findMatchingPatterns_filter_sort_pure (prof : GenesisProfileData) (q : MatchQuery) :
    (∀ p : EmotionalPattern,
      p ∈ (GenesisProfile.findMatchingPatterns prof q).1 ↔
        p ∈ prof.emotionalFingerprint ∧
        p.characteristics.primary = q.primary ∧
        p.characteristics.intensityRange.1 ≤ q.intensity ∧
        q.intensity ≤ p.characteristics.intensityRange.2 ∧
        |p.characteristics.pressureSensitivity - q.pressure| < 1/5 ∧
        |p.characteristics.thermalSignature - q.thermal| < 1/5) ∧
    (GenesisProfile.findMatchingPatterns prof q).1.Sorted GenesisProfile.confGe ∧
    (∀ c : ℚ,
      (GenesisProfile.findMatchingPatterns prof q).1.filter
          (fun p => decide (p.confidence = c)) =
        (prof.emotionalFingerprint.filter (GenesisProfile.matchesCharacteristics q)).filter
          (fun p => decide (p.confidence = c))) ∧
    (GenesisProfile.findMatchingPatterns prof q).2 = prof ∧
    (GenesisProfile.findMatchingPatterns
        ((GenesisProfile.findMatchingPatterns prof q).2) q).1 =
      (GenesisProfile.findMatchingPatterns prof q).1 := by
  refine ⟨?_, ?_, ?_, rfl, rfl⟩
  · intro p
    have hperm := List.perm_insertionSort GenesisProfile.confGe
      (prof.emotionalFingerprint.filter (GenesisProfile.matchesCharacteristics q))
    rw [GenesisProfile.findMatchingPatterns]
    simp only [hperm.mem_iff, List.mem_filter]
    simp [GenesisProfile.matchesCharacteristics, and_assoc]
  · exact List.sorted_insertionSort GenesisProfile.confGe _
  · intro c
    exact GenesisProfile.filter_insertionSort_conf c _

/-- C6: with both share flags off, `exportProfile(false)` carries only the
identity/version/timestamp fields (all four sensitive groups are absent),
two such profiles differing only in patterns, preferences, privacy
settings or learning data export identically, and `exportProfile(true)`
carries every field including privacy settings and learning data. -/
theorem exportProfile_private_data_hidden (prof prof2 : GenesisProfileData)
    (hpat : prof.privacySettings.sharePatterns = false)
    (hpref : prof.privacySettings.sharePreferences = false)
    (hpat2 : prof2.privacySettings.sharePatterns = false)
    (hpref2 : prof2.privacySettings.sharePreferences = false)
    (hid : prof2.userId = prof.userId)
    (hdn : prof2.displayName = prof.displayName)
    (hver : prof2.version = prof.version)
    (hcr : prof2.createdAt = prof.createdAt)
    (hup : prof2.updatedAt = prof.updatedAt) :
    ((GenesisProfile.exportProfile prof false).emotionalFingerprint = none ∧
      (GenesisProfile.exportProfile prof false).resonancePreferences = none ∧
      (GenesisProfile.exportProfile prof false).privacySettings = none ∧
      (GenesisProfile.exportProfile prof false).learningData = none) ∧
    GenesisProfile.exportProfile prof2 false = GenesisProfile.exportProfile prof false ∧
    GenesisProfile.exportProfile prof true =
      { userId := prof.userId
        displayName := prof.displayName
        version := prof.version
        createdAt := prof.createdAt
        updatedAt := prof.updatedAt
        emotionalFingerprint := some prof.emotionalFingerprint
        resonancePreferences := some prof.resonancePreferences
        privacySettings := some prof.privacySettings
        learningData := some prof.learningData } := by
  refine ⟨⟨?_, ?_, rfl, rfl⟩, ?_, ?_⟩
  · simp [GenesisProfile.exportProfile, hpat]
  · simp [GenesisProfile.exportProfile, hpref]
  · simp [GenesisProfile.exportProfile, hpat, hpref, hpat2, hpref2, hid, hdn, hver, hcr, hup]
  · simp [GenesisProfile.exportProfile]

/-- A concrete stored pattern used to witness the export claim. -/
def witnessPattern : EmotionalPattern :=
  { id := "pattern-1"
    name := "gentle joy"
    characteristics :=
      { primary := "joy"
        intensityRange := (1/4, 3/4)
        pressureSensitivity := 1/2
        thermalSignature := 1/2 }
    frequency := 3
    confidence := 4/5
    lastObserved := 10
    createdAt := 4 }

/-- Witness for C6 at two concrete profiles that differ only in their
stored patterns and learning data. -/
theorem exportProfile_private_data_hidden_witness :
    ((GenesisProfile.exportProfile (GenesisProfile.createDefaultProfile "alice" 5)
        false).emotionalFingerprint = none ∧
      (GenesisProfile.exportProfile (GenesisProfile.createDefaultProfile "alice" 5)
        false).resonancePreferences = none ∧
      (GenesisProfile.exportProfile (GenesisProfile.createDefaultProfile "alice" 5)
        false).privacySettings = none ∧
      (GenesisProfile.exportProfile (GenesisProfile.createDefaultProfile "alice" 5)
        false).learningData = none) ∧
    GenesisProfile.exportProfile
      { GenesisProfile.createDefaultProfile "alice" 5 with
          emotionalFingerprint := [witnessPattern] } false =
      GenesisProfile.exportProfile (GenesisProfile.createDefaultProfile "alice" 5) false ∧
    GenesisProfile.exportProfile (GenesisProfile.createDefaultProfile "alice" 5) true =
      { userId := (GenesisProfile.createDefaultProfile "alice" 5).userId
        displayName := (GenesisProfile.createDefaultProfile "alice" 5).displayName
        version := (GenesisProfile.createDefaultProfile "alice" 5).version
        createdAt := (GenesisProfile.createDefaultProfile "alice" 5).createdAt
        updatedAt := (GenesisProfile.createDefaultProfile "alice" 5).updatedAt
        emotionalFingerprint :=
          some (GenesisProfile.createDefaultProfile "alice" 5).emotionalFingerprint
        resonancePreferences :=
          some (GenesisProfile.createDefaultProfile "alice" 5).resonancePreferences
        privacySettings :=
          some (GenesisProfile.createDefaultProfile "alice" 5).privacySettings
        learningData :=
          some (GenesisProfile.createDefaultProfile "alice" 5).learningData } :=
  exportProfile_private_data_hidden
    (GenesisProfile.createDefaultProfile "alice" 5)
    { GenesisProfile.createDefaultProfile "alice" 5 with
        emotionalFingerprint := [witnessPattern] }
    rfl rfl rfl rfl rfl rfl rfl rfl rfl

/-- C9 counterexample: with merge enabled, `data.updatedAt` does not
survive the call — `importProfile` awaits `saveProfile`, which stamps
`updatedAt` with the current time — so "shallow-overlaying data's other
top-level fields" fails at the `updatedAt` field. -/
theorem importProfile_updatedAt_counterexample :
    ({ updatedAt := some 5 } : GenesisProfile.ProfileImportData).updatedAt = some 5 ∧
    (GenesisProfile.importProfile (GenesisProfile.createDefaultProfile "bob" 0)
      { updatedAt := some 5 } true 7).updatedAt = 7 ∧
    (GenesisProfile.importProfile (GenesisProfile.createDefaultProfile "bob" 0)
      { updatedAt := some 5 } true 7).updatedAt ≠ 5 := by
  refine ⟨rfl, rfl, ?_⟩
  simp [GenesisProfile.importProfile]

/-- C9 (amended): `importProfile(data, merge = true)` preserves the
original `userId` and `createdAt` regardless of the values in `data`, and
shallow-overlays every other top-level field from `data` except
`updatedAt`, which is re-stamped with the save time. -/
theorem importProfile_merge_preserves_identity (prof : GenesisProfileData)
    (data : GenesisProfile.ProfileImportData) (now : ℕ) :
    (GenesisProfile.importProfile prof data true now).userId = prof.userId ∧
    (GenesisProfile.importProfile prof data true now).createdAt = prof.createdAt ∧
    (GenesisProfile.importProfile prof data true now).displayName =
      data.displayName.getD prof.displayName ∧
    (GenesisProfile.importProfile prof data true now).emotionalFingerprint =
      data.emotionalFingerprint.getD prof.emotionalFingerprint ∧
    (GenesisProfile.importProfile prof data true now).resonancePreferences =
      data.resonancePreferences.getD prof.resonancePreferences ∧
    (GenesisProfile.importProfile prof data true now).privacySettings =
      data.privacySettings.getD prof.privacySettings ∧
    (GenesisProfile.importProfile prof data true now).learningData =
      data.learningData.getD prof.learningData ∧
    (GenesisProfile.importProfile prof data true now).version =
      data.version.getD prof.version ∧
    (GenesisProfile.importProfile prof data true now).updatedAt = now := by
  simp [GenesisProfile.importProfile, GenesisProfile.overlayProfile]

/-! ## Resonance Mapper

The mapper class itself (`ResonanceEngine`) is not part of the core
sources; only its rule table `RESONANCE_MAPPINGS` and the threshold table
`PRESSURE_THRESHOLDS` live in `constants.ts`. The lookup is therefore
modelled from the spec (§4.1) over those source tables. -/

/-- `EMOTION_TYPES` (`constants.ts` lines 15-42). -/
inductive EmotionType
  | joy
  | calm
  | love
  | excitement
  | gratitude
  | compassion
  | focus
  | determination
  | concentration
  | discipline
  | anger
  | frustration
  | anxiety
  | sadness
  | fear
  | curiosity
  | wonder
  | contemplation
  | inspiration
  deriving DecidableEq, Repr

/-- `INTERACTION_MODES` (`constants.ts` lines 50-55). -/
inductive InteractionMode
  | creation
  | alteration
  | destruction
  | blessing
  deriving DecidableEq, Repr

/-- `FORM_TYPES` (`constants.ts` lines 63-86). -/
inductive FormType
  | organic
  | fluid
  | natural
  | growing
  | geometric
  | crystalline
  | precise
  | structured
  | animated
  | responsive
  | interactive
  | ethereal
  | glowing
  | translucent
  | immaterial
  deriving DecidableEq, Repr

/-- The named pressure bands of the spec (§4.1), derived from
`PRESSURE_THRESHOLDS` (`constants.ts` lines 142-149). -/
inductive PressureBand
  | veryLight
  | light
  | medium
  | heavy
  | veryHeavy
  deriving DecidableEq, Repr

/-- The `{mode, form, characteristics}` value of one rule of
`RESONANCE_MAPPINGS`. -/
structure RuleAction where
  mode : InteractionMode
  form : FormType
  characteristics : List String
  deriving DecidableEq, Repr

/-- One rule of `RESONANCE_MAPPINGS`: the emotions and the band named by
the rule's key, and the action it yields. -/
structure ResonanceRule where
  emotions : List EmotionType
  band : PressureBand
  action : RuleAction
  deriving DecidableEq, Repr

namespace ResonanceMapper

/-- `RESONANCE_MAPPINGS` (`constants.ts` lines 157-205) in declared
order, each string key decomposed into its emotions and band. -/
def RESONANCE_MAPPINGS : List ResonanceRule :=
  [ { emotions := [.joy, .calm], band := .light
      action := { mode := .creation, form := .organic
                  characteristics := ["flowing", "natural", "smooth"] } }
  , { emotions := [.love], band := .veryLight
      action := { mode := .creation, form := .growing
                  characteristics := ["gentle", "nurturing", "expanding"] } }
  , { emotions := [.focus, .determination], band := .medium
      action := { mode := .alteration, form := .precise
                  characteristics := ["refined", "accurate", "controlled"] } }
  , { emotions := [.concentration], band := .medium
      action := { mode := .alteration, form := .structured
                  characteristics := ["organized", "systematic", "ordered"] } }
  , { emotions := [.anger, .frustration], band := .heavy
      action := { mode := .destruction, form := .geometric
                  characteristics := ["sharp", "fractured", "broken"] } }
  , { emotions := [.anxiety], band := .heavy
      action := { mode := .destruction, form := .crystalline
                  characteristics := ["fragile", "shattered", "dispersed"] } }
  , { emotions := [.compassion], band := .veryLight
      action := { mode := .blessing, form := .ethereal
                  characteristics := ["glowing", "radiant", "transcendent"] } }
  , { emotions := [.gratitude], band := .light
      action := { mode := .blessing, form := .glowing
                  characteristics := ["warm", "luminous", "harmonious"] } } ]

/-- Modelled from the spec: the band derivation is missing from the core
sources, so the `PRESSURE_THRESHOLDS` values (0.05, 0.2, 0.5, 0.7, 0.9)
are read as inclusive lower bounds of the five ordered, non-overlapping
bands — the convention consistent with both spec scenarios (pressure 0.15
is VERY_LIGHT territory for the love rule, pressure 0.8 is HEAVY). -/
def pressureBand (p : ℚ) : PressureBand :=
  if 9/10 ≤ p then .veryHeavy
  else if 7/10 ≤ p then .heavy
  else if 1/2 ≤ p then .medium
  else if 1/5 ≤ p then .light
  else .veryLight

/-- Modelled from the spec: rules iterate in declared specificity order —
rules naming two emotions before rules naming one, declaration order
within each group (§4.1). -/
def orderedRules : List ResonanceRule :=
  RESONANCE_MAPPINGS.filter (fun r => r.emotions.length == 2) ++
    RESONANCE_MAPPINGS.filter (fun r => r.emotions.length == 1)

/-- The documented neutral fallback action of the mapper (§4.1): mode =
alteration, form = structured, empty characteristics. -/
def NEUTRAL_FALLBACK : RuleAction :=
  { mode := .alteration, form := .structured, characteristics := [] }

/-- `EmotionalState` as consumed by the mapper: primary emotion tag and
intensity. -/
structure EmotionalState where
  primary : EmotionType
  intensity : ℚ
  deriving DecidableEq, Repr

/-- Modelled from the spec: `map(emotionalState, pressure)` — the
`ResonanceEngine` lookup is missing from the core sources. A rule matches
when its band equals the derived band and it names the state's primary
emotion; the first match in specificity order wins, and the neutral
fallback is returned when no rule matches (§4.1). -/
def map (state : EmotionalState) (pressure : ℚ) : RuleAction :=
  match orderedRules.find?
      (fun r => decide (r.band = pressureBand pressure) &&
        decide (state.primary ∈ r.emotions)) with
  | some r => r.action
  | none => NEUTRAL_FALLBACK

end ResonanceMapper

/-- C1: for every pressure in [0,1] and every defined emotion, `map` is
total — it returns either an action defined in the `RESONANCE_MAPPINGS`
table or the documented neutral fallback (mode = alteration, form =
structured, empty characteristics); it never fails. -/
theorem map_total_table_or_fallback (state : ResonanceMapper.EmotionalState)
    (pressure : ℚ) (_h0 : 0 ≤ pressure) (_h1 : pressure ≤ 1) :
    (∃ r ∈ ResonanceMapper.RESONANCE_MAPPINGS,
      ResonanceMapper.map state pressure = r.action) ∨
    ResonanceMapper.map state pressure = ResonanceMapper.NEUTRAL_FALLBACK := by
  rcases hf : ResonanceMapper.orderedRules.find?
      (fun r => decide (r.band = ResonanceMapper.pressureBand pressure) &&
        decide (state.primary ∈ r.emotions)) with _ | r
  · right
    simp [ResonanceMapper.map, hf]
  · left
    refine ⟨r, ?_, by simp [ResonanceMapper.map, hf]⟩
    have hmem := List.mem_of_find?_eq_some hf
    rcases List.mem_append.mp hmem with h | h
    · exact (List.mem_filter.mp h).1
    · exact (List.mem_filter.mp h).1

/-- Witness for C1 at the joy emotion and mid-range pressure 0.5. -/
theorem map_total_table_or_fallback_witness :
    (∃ r ∈ ResonanceMapper.RESONANCE_MAPPINGS,
      ResonanceMapper.map ⟨.joy, 1/2⟩ (1/2) = r.action) ∨
    ResonanceMapper.map ⟨.joy, 1/2⟩ (1/2) = ResonanceMapper.NEUTRAL_FALLBACK :=
  map_total_table_or_fallback ⟨.joy, 1/2⟩ (1/2) (by norm_num) (by norm_num)

/-- C8: a sample with pressure 0.8 classified as anger with intensity 0.75
falls in the HEAVY band and maps to mode "destruction" with form
"geometric". -/
theorem map_anger_heavy_destruction_geometric :
    ResonanceMapper.pressureBand (4/5) = .heavy ∧
    (ResonanceMapper.map ⟨.anger, 3/4⟩ (4/5)).mode = .destruction ∧
    (ResonanceMapper.map ⟨.anger, 3/4⟩ (4/5)).form = .geometric := by
  have hband : ResonanceMapper.pressureBand (4/5) = .heavy := by
    rw [ResonanceMapper.pressureBand]
    norm_num
  refine ⟨hband, ?_, ?_⟩ <;>
    · simp only [ResonanceMapper.map, hband]
      decide
